import Mathlib

/-!
Verification of the user-management REST API (routes in
`app/routers/user_routes.py`, schema in the initial migration).

The request handlers are embedded from the source file directly.  The
collaborators the handlers call (`UserService`, the pydantic schemas and
the link-generation helpers) are not part of the source tree; each such
definition is modelled from the specification and carries a doc comment
saying so.  Machine state is the list of persisted user rows; each
handler is a function from the request data and the current store to an
`Except`-style outcome (plus the successor store where the handler
mutates it).
-/

namespace UserApi

/-- A row of the `users` table, columns as in the initial migration
(`95daf945575a`).  UUIDs are modelled as naturals, timestamps as
naturals. -/
structure User where
  id : Nat
  username : String
  email : String
  hashed_password : String
  full_name : Option String
  bio : Option String
  profile_picture_url : Option String
  last_login_at : Option Nat
  failed_login_attempts : Option Nat
  created_at : Nat
  updated_at : Nat
deriving Repr, DecidableEq

/-- The persisted store: the rows of the `users` table in a stable
(insertion / primary-key) order. -/
abbrev Store := List User

/-- Error taxonomy of the handlers.  `zeroDivisionError` models a Python
`ZeroDivisionError` escaping the handler (the framework surfaces it as an
HTTP 500, not as a validation error). -/
inductive ApiError where
  | notFound
  | conflict
  | internalError
  | unauthorized
  | validation
  | zeroDivisionError
deriving Repr, DecidableEq

/-- HTTP status code each error surfaces as. -/
def ApiError.statusCode : ApiError → Nat
  | .notFound => 404
  | .conflict => 400
  | .internalError => 500
  | .unauthorized => 401
  | .validation => 422
  | .zeroDivisionError => 500

/-- Python floor division `a // b`: raises `ZeroDivisionError` when the
divisor is zero, otherwise rounds toward negative infinity. -/
def pyFloorDiv (a b : Int) : Except ApiError Int :=
  if b = 0 then .error .zeroDivisionError else .ok (Int.fdiv a b)

/-- The request context: the parts of the incoming request the handlers
read when building links (scheme/host). -/
structure RequestCtx where
  base_url : String
deriving Repr, DecidableEq

/-- Modelled from the spec: `get_by_id(id)` of the user data-access
component (§4.1, not in the source tree) — "the matching user or
none-found". -/
def UserService.get_by_id (db : Store) (uid : Nat) : Option User :=
  db.find? (fun u => u.id == uid)

/-- Modelled from the spec: `get_by_username(name)` of the user
data-access component (§4.1, not in the source tree) — "the matching
user or none-found". -/
def UserService.get_by_username (db : Store) (name : String) : Option User :=
  db.find? (fun u => u.username == name)

/-- Modelled from the spec: `count()` of the user data-access component
(§4.1, not in the source tree) — "total number of user rows". -/
def UserService.count (db : Store) : Nat :=
  db.length

/-- Modelled from the spec: `list_users(skip, limit)` of the user
data-access component (§4.1, not in the source tree) — "an ordered
sequence of users, offset by `skip`, capped at `limit`" in stable
store order. -/
def UserService.list_users (db : Store) (skip limit : Int) : List User :=
  (db.drop skip.toNat).take limit.toNat

/-- Fields of a create-user request (`UserCreate` schema, not in the
source tree): username, email, password, optional profile fields
(spec §4.3). -/
structure UserCreate where
  username : String
  email : String
  password : String
  full_name : Option String
  bio : Option String
  profile_picture_url : Option String
deriving Repr, DecidableEq

/-- Modelled from the spec: `create(fields)` of the user data-access
component (§4.1, not in the source tree) — "inserts a new row with a
freshly generated identifier and both timestamps set to the current
time; returns the created user or a failure if insertion violates a
uniqueness constraint".  The store's uniqueness constraints are the
primary key on `id` and the unique constraints on `username` and
`email` (initial migration).  `hash` is the external password-hashing
collaborator; `freshId` and `now` stand for the generated identifier
and the current time. -/
def UserService.create (db : Store) (fields : UserCreate) (hash : String → String)
    (freshId now : Nat) : Option (User × Store) :=
  if db.any (fun u => u.id == freshId || u.username == fields.username
      || u.email == fields.email) then
    none
  else
    let u : User :=
      { id := freshId
        username := fields.username
        email := fields.email
        hashed_password := hash fields.password
        full_name := fields.full_name
        bio := fields.bio
        profile_picture_url := fields.profile_picture_url
        last_login_at := none
        failed_login_attempts := some 0
        created_at := now
        updated_at := now }
    some (u, db ++ [u])

/-- A partial-update payload (`UserUpdate` schema with
`model_dump(exclude_unset=True)`, not in the source tree).  Presence
tracking is explicit, as the spec demands (§9): an outer `none` means
the field was absent from the payload; an outer `some` means it was
present, with the given new value (which may itself be empty/null for a
nullable field). -/
structure UserUpdate where
  username : Option String
  email : Option String
  full_name : Option (Option String)
  bio : Option (Option String)
  profile_picture_url : Option (Option String)
deriving Repr, DecidableEq

/-- Overwrite exactly the fields present in the payload and refresh the
update timestamp. -/
def applyUpdate (u : User) (p : UserUpdate) (now : Nat) : User :=
  { u with
    username := p.username.getD u.username
    email := p.email.getD u.email
    full_name := p.full_name.getD u.full_name
    bio := p.bio.getD u.bio
    profile_picture_url := p.profile_picture_url.getD u.profile_picture_url
    updated_at := now }

/-- Modelled from the spec: `update(id, fields)` of the user data-access
component (§4.1, not in the source tree) — "applies only the fields
present in the partial-update payload (fields absent from the payload
are left unchanged — exclude-unset semantics), refreshes the update
timestamp, returns the updated user or none-found if the id does not
exist". -/
def UserService.update (db : Store) (uid : Nat) (p : UserUpdate) (now : Nat) :
    Option (User × Store) :=
  match UserService.get_by_id db uid with
  | none => none
  | some u =>
    let u2 := applyUpdate u p now
    some (u2, db.map (fun v => if v.id == uid then u2 else v))

/-- Modelled from the spec: `delete(id)` of the user data-access
component (§4.1, not in the source tree) — "removes the row; returns a
boolean indicating whether a row existed and was removed". -/
def UserService.delete (db : Store) (uid : Nat) : Bool × Store :=
  (db.any (fun u => u.id == uid), db.filter (fun u => !(u.id == uid)))

/-- Modelled from the spec: `create_user_links(user_id, request_context)`
(§4.2, not in the source tree) — "a mapping with keys `self`, `update`,
`delete`, each an absolute URL built from the current request's
scheme/host and a static path template parameterized by `user_id`". -/
def create_user_links (uid : Nat) (req : RequestCtx) : List (String × String) :=
  [("self", req.base_url ++ "/users/" ++ toString uid),
   ("update", req.base_url ++ "/users/" ++ toString uid),
   ("delete", req.base_url ++ "/users/" ++ toString uid)]

/-- URL of a list page at a given offset and limit. -/
def pageUrl (req : RequestCtx) (skip limit : Int) : String :=
  req.base_url ++ "/users/?skip=" ++ toString skip ++ "&limit=" ++ toString limit

/-- Modelled from the spec:
`generate_pagination_links(request_context, skip, limit, total_items)`
(§4.2, not in the source tree) — "a mapping with keys `self` (always
present), `next` (present iff `skip + limit < total_items`), `previous`
(present iff `skip > 0`, with offset clamped to zero)". -/
def generate_pagination_links (req : RequestCtx) (skip limit total_items : Int) :
    List (String × String) :=
  [("self", pageUrl req skip limit)]
    ++ (if skip + limit < total_items then [("next", pageUrl req (skip + limit) limit)] else [])
    ++ (if 0 < skip then [("previous", pageUrl req (max (skip - limit) 0) limit)] else [])

/-- The response model the handlers build with
`UserResponse.model_construct(...)`: exactly the fields named at the
construction sites in `user_routes.py` (id, username, email,
last_login_at, created_at, updated_at, links). -/
structure UserResponse where
  id : Nat
  username : String
  email : String
  last_login_at : Option Nat
  created_at : Nat
  updated_at : Nat
  links : List (String × String)
deriving Repr, DecidableEq

/-- A JSON leaf value of a serialized response. -/
inductive Field where
  | nat : Nat → Field
  | str : String → Field
  | optNat : Option Nat → Field
  | linkMap : List (String × String) → Field
deriving Repr, DecidableEq

/-- Serialization of a `UserResponse` into the key/value pairs of its
JSON payload. -/
def UserResponse.serialize (r : UserResponse) : List (String × Field) :=
  [("id", .nat r.id),
   ("username", .str r.username),
   ("email", .str r.email),
   ("last_login_at", .optNat r.last_login_at),
   ("created_at", .nat r.created_at),
   ("updated_at", .nat r.updated_at),
   ("links", .linkMap r.links)]

/-- `UserResponse.model_construct(...)` as written at each construction
site in `user_routes.py`: the user's fields except the hashed password,
plus the links. -/
def mkUserResponse (u : User) (links : List (String × String)) : UserResponse :=
  { id := u.id
    username := u.username
    email := u.email
    last_login_at := u.last_login_at
    created_at := u.created_at
    updated_at := u.updated_at
    links := links }

/-- The pagination block of the list response (`EnhancedPagination`). -/
structure EnhancedPagination where
  page : Int
  per_page : Int
  total_items : Int
  total_pages : Int
  links : List (String × String)
deriving Repr, DecidableEq

/-- The list-users response body. -/
structure UserListResponse where
  items : List UserResponse
  pagination : EnhancedPagination
deriving Repr, DecidableEq

/-- An HTTP response with no model (used by the delete handler). -/
structure HttpResponse where
  status_code : Nat
  body : Option String
deriving Repr, DecidableEq

/-- Modelled from the spec: the `oauth2_scheme` dependency
(`OAuth2PasswordBearer`, an external collaborator) — "token presence
only, not validity, is enforced" (§6): a missing bearer token aborts the
request with 401 before the handler body runs. -/
def withAuth {α : Type} (token : Option String) (body : String → α)
    (onErr : ApiError → α) : α :=
  match token with
  | none => onErr .unauthorized
  | some t => body t

/-- Handler `get_user` (`user_routes.py` lines 35–60). -/
def get_user (user_id : Nat) (req : RequestCtx) (db : Store) (token : Option String) :
    Except ApiError UserResponse :=
  withAuth token (fun _ =>
    match UserService.get_by_id db user_id with
    | none => .error .notFound
    | some user => .ok (mkUserResponse user (create_user_links user.id req)))
    .error

/-- Handler `update_user` (`user_routes.py` lines 70–90); paired with
the successor store.  `user_update` is already the exclude-unset dump of
the payload (line 77). -/
def update_user (user_id : Nat) (user_update : UserUpdate) (req : RequestCtx)
    (db : Store) (token : Option String) (now : Nat) :
    Except ApiError UserResponse × Store :=
  withAuth token (fun _ =>
    match UserService.update db user_id user_update now with
    | none => (.error .notFound, db)
    | some (updated_user, db2) =>
      (.ok (mkUserResponse updated_user (create_user_links updated_user.id req)), db2))
    (fun e => (.error e, db))

/-- Handler `delete_user` (`user_routes.py` lines 94–103); paired with
the successor store. -/
def delete_user (user_id : Nat) (db : Store) (token : Option String) :
    Except ApiError HttpResponse × Store :=
  withAuth token (fun _ =>
    match UserService.delete db user_id with
    | (false, _) => (.error .notFound, db)
    | (true, db2) => (.ok { status_code := 204, body := none }, db2))
    (fun e => (.error e, db))

/-- Handler `create_user` (`user_routes.py` lines 108–142); paired with
the successor store.  `hash`, `freshId`, `now` are the external
collaborators of the insert (password hashing, id generation, clock). -/
def create_user (user : UserCreate) (req : RequestCtx) (db : Store)
    (token : Option String) (hash : String → String) (freshId now : Nat) :
    Except ApiError UserResponse × Store :=
  withAuth token (fun _ =>
    match UserService.get_by_username db user.username with
    | some _ => (.error .conflict, db)
    | none =>
      match UserService.create db user hash freshId now with
      | none => (.error .internalError, db)
      | some (created_user, db2) =>
        (.ok (mkUserResponse created_user (create_user_links created_user.id req)), db2))
    (fun e => (.error e, db))

/-- Handler `list_users` (`user_routes.py` lines 145–168).  The page
number is `skip // limit + 1` (line 161) and the total-pages count is
`(total_users + limit - 1) // limit` (line 164), both Python floor
divisions, which raise `ZeroDivisionError` on a zero divisor. -/
def list_users (req : RequestCtx) (skip limit : Int) (db : Store)
    (token : Option String) : Except ApiError UserListResponse :=
  withAuth token (fun _ =>
    let total_users : Int := UserService.count db
    let users := UserService.list_users db skip limit
    let user_responses :=
      users.map (fun u => mkUserResponse u (create_user_links u.id req))
    let pagination_links := generate_pagination_links req skip limit total_users
    match pyFloorDiv skip limit with
    | .error e => .error e
    | .ok d1 =>
      match pyFloorDiv (total_users + limit - 1) limit with
      | .error e => .error e
      | .ok d2 =>
        .ok { items := user_responses
              pagination :=
                { page := d1 + 1
                  per_page := limit
                  total_items := total_users
                  total_pages := d2
                  links := pagination_links } })
    .error

/-! ### Helper lemmas -/

/-- The username pre-check misses exactly when no stored user carries the
requested username. -/
theorem get_by_username_eq_none_iff (db : Store) (name : String) :
    UserService.get_by_username db name = none ↔ ∀ v ∈ db, v.username ≠ name := by
  simp [UserService.get_by_username, List.find?_eq_none]

/-- The id lookup misses exactly when no stored user carries the
requested id. -/
theorem get_by_id_eq_none_iff (db : Store) (uid : Nat) :
    UserService.get_by_id db uid = none ↔ ∀ v ∈ db, v.id ≠ uid := by
  simp [UserService.get_by_id, List.find?_eq_none]

/-- Removing the rows with a given id and keeping them partitions the
store's length. -/
theorem length_filter_ne (db : Store) (uid : Nat) :
    (db.filter (fun v => !(v.id == uid))).length
      + db.countP (fun v => v.id == uid) = db.length := by
  induction db with
  | nil => rfl
  | cons x xs ih =>
    by_cases h : x.id = uid <;>
      simp [List.filter_cons, List.countP_cons, h] <;>
      omega

/-- Under the primary-key invariant (all ids distinct), a present id is
carried by exactly one row. -/
theorem countP_id_eq_one {db : Store} {uid : Nat}
    (hnodup : (db.map User.id).Nodup) {u : User} (hu : u ∈ db) (huid : u.id = uid) :
    db.countP (fun v => v.id == uid) = 1 := by
  have hmem : uid ∈ db.map User.id := List.mem_map.mpr ⟨u, hu, huid⟩
  have h1 := List.count_eq_one_of_mem hnodup hmem
  rw [List.count_eq_countP, List.countP_map] at h1
  simpa [Function.comp] using h1

/-- Python's `(t + l - 1) // l` computes the ceiling of `t / l` for a
positive divisor. -/
theorem add_sub_one_fdiv_eq_ceil (tt l : ℤ) (hl : 0 < l) :
    (tt + l - 1).fdiv l = ⌈(tt : ℚ) / (l : ℚ)⌉ := by
  rw [Int.fdiv_eq_ediv _ (le_of_lt hl), eq_comm, Int.ceil_eq_iff]
  set d : ℤ := (tt + l - 1) / l with hd
  have hmn : 0 ≤ (tt + l - 1) % l := Int.emod_nonneg _ (ne_of_gt hl)
  have hml : (tt + l - 1) % l < l := Int.emod_lt_of_pos _ hl
  have hdm := Int.ediv_add_emod (tt + l - 1) l
  rw [← hd] at hdm
  obtain ⟨m, hm⟩ : ∃ m, l * d = m := ⟨_, rfl⟩
  rw [hm] at hdm
  have h1 : tt ≤ m := by omega
  have h2 : m - l < tt := by omega
  have hlq : (0 : ℚ) < (l : ℚ) := by exact_mod_cast hl
  have hmq : (l : ℚ) * (d : ℚ) = (m : ℚ) := by exact_mod_cast hm
  have h1q : (tt : ℚ) ≤ (m : ℚ) := by exact_mod_cast h1
  have h2q : (m : ℚ) - (l : ℚ) < (tt : ℚ) := by exact_mod_cast h2
  constructor
  · rw [lt_div_iff₀ hlq]
    nlinarith [hmq, h2q]
  · rw [div_le_iff₀ hlq]
    nlinarith [hmq, h1q]

/-- Evaluation of the list-users handler for a nonzero limit: both
floor divisions succeed and the response is assembled as at lines
160–168 of the source. -/
theorem listUsers_ok (db : Store) (skip limit : Int) (req : RequestCtx) (t : String)
    (hne : limit ≠ 0) :
    list_users req skip limit db (some t) = .ok
      { items := (UserService.list_users db skip limit).map
          (fun u => mkUserResponse u (create_user_links u.id req))
        pagination :=
          { page := skip.fdiv limit + 1
            per_page := limit
            total_items := (db.length : Int)
            total_pages := ((db.length : Int) + limit - 1).fdiv limit
            links := generate_pagination_links req skip limit (db.length : Int) } } := by
  simp [list_users, withAuth, pyFloorDiv, hne, UserService.count]

/-! ### Concrete fixtures used by the witnesses -/

/-- A concrete stored user. -/
def alice : User :=
  { id := 1, username := "alice", email := "alice@example.com", hashed_password := "h1"
    full_name := none, bio := none, profile_picture_url := none
    last_login_at := none, failed_login_attempts := some 0
    created_at := 0, updated_at := 0 }

/-- A second concrete stored user. -/
def bob : User :=
  { id := 2, username := "bob", email := "bob@example.com", hashed_password := "h2"
    full_name := none, bio := none, profile_picture_url := none
    last_login_at := none, failed_login_attempts := some 0
    created_at := 0, updated_at := 0 }

/-- A concrete request context. -/
def req0 : RequestCtx := { base_url := "http://h" }

/-- A concrete two-user store. -/
def db2 : Store := [alice, bob]

/-- A concrete stand-in for the external password-hashing collaborator. -/
def hash0 : String → String := fun s => s ++ "#"

/-- A create request whose username collides with `alice`. -/
def dupNameReq : UserCreate :=
  { username := "alice", email := "fresh@example.com", password := "pw"
    full_name := none, bio := none, profile_picture_url := none }

/-- A create request with a fresh username but `alice`'s email. -/
def dupEmailReq : UserCreate :=
  { username := "carol", email := "alice@example.com", password := "pw"
    full_name := none, bio := none, profile_picture_url := none }

/-- A concrete exclude-unset payload: email and bio present (bio set to
a value), profile picture present and explicitly nulled, username and
full name absent. -/
def upd0 : UserUpdate :=
  { username := none, email := some "new@example.com"
    full_name := none, bio := some (some "hi")
    profile_picture_url := some none }

/-! ### Claim theorems -/

/-- C9: every endpoint requires a bearer token to be present (a missing
token aborts with 401), and the token's value never influences the
result: each handler yields the same outcome for any two token
strings. -/
theorem endpoints_token_noninterference :
    (∀ t1 t2 uid req db, get_user uid req db (some t1) = get_user uid req db (some t2))
    ∧ (∀ t1 t2 uid p req db now,
        update_user uid p req db (some t1) now = update_user uid p req db (some t2) now)
    ∧ (∀ t1 t2 uid db, delete_user uid db (some t1) = delete_user uid db (some t2))
    ∧ (∀ t1 t2 u req db hash freshId now,
        create_user u req db (some t1) hash freshId now
          = create_user u req db (some t2) hash freshId now)
    ∧ (∀ t1 t2 req skip limit db,
        list_users req skip limit db (some t1) = list_users req skip limit db (some t2))
    ∧ (∀ uid req db, get_user uid req db none = .error .unauthorized)
    ∧ (∀ uid p req db now, update_user uid p req db none now = (.error .unauthorized, db))
    ∧ (∀ uid db, delete_user uid db none = (.error .unauthorized, db))
    ∧ (∀ u req db hash freshId now,
        create_user u req db none hash freshId now = (.error .unauthorized, db))
    ∧ (∀ req skip limit db, list_users req skip limit db none = .error .unauthorized)
    ∧ ApiError.unauthorized.statusCode = 401 :=
  ⟨fun _ _ _ _ _ => rfl, fun _ _ _ _ _ _ _ => rfl, fun _ _ _ _ => rfl,
   fun _ _ _ _ _ _ _ _ => rfl, fun _ _ _ _ _ _ => rfl,
   fun _ _ _ => rfl, fun _ _ _ _ _ => rfl, fun _ _ => rfl,
   fun _ _ _ _ _ _ => rfl, fun _ _ _ _ => rfl, rfl⟩

/-- C1 (code bug): the list-users handler performs no validation on
`limit`; a request with `limit = 0` reaches the page-number floor
division `skip // limit` with a zero divisor, raising
`ZeroDivisionError` (surfaced as HTTP 500), instead of being rejected
with a VALIDATION error beforehand. -/
theorem listUsers_limit_zero_reaches_division (req : RequestCtx) (skip : Int)
    (db : Store) (t : String) :
    list_users req skip 0 db (some t) = .error .zeroDivisionError
    ∧ ApiError.zeroDivisionError.statusCode = 500
    ∧ ApiError.zeroDivisionError ≠ ApiError.validation := by
  refine ⟨?_, rfl, by decide⟩
  simp [list_users, withAuth, pyFloorDiv]

/-- C2: a create-user request whose username equals an existing user's
username yields CONFLICT (HTTP 400) with the store unchanged (no row
inserted); when the pre-check passes but the insertion returns nothing,
the handler yields INTERNAL (HTTP 500), again with the store
unchanged. -/
theorem createUser_conflict_and_internal (db : Store) (u : UserCreate) (req : RequestCtx)
    (t : String) (hash : String → String) (freshId now : Nat) :
    ((∃ v ∈ db, v.username = u.username) →
      create_user u req db (some t) hash freshId now = (.error .conflict, db)
      ∧ ApiError.conflict.statusCode = 400)
    ∧ ((∀ v ∈ db, v.username ≠ u.username) →
      UserService.create db u hash freshId now = none →
      create_user u req db (some t) hash freshId now = (.error .internalError, db)
      ∧ ApiError.internalError.statusCode = 500) := by
  constructor
  · rintro ⟨v, hv, hvu⟩
    have hsome : (UserService.get_by_username db u.username).isSome := by
      simp only [UserService.get_by_username, List.find?_isSome]
      exact ⟨v, hv, by simp [hvu]⟩
    obtain ⟨w, hw⟩ := Option.isSome_iff_exists.mp hsome
    exact ⟨by simp [create_user, withAuth, hw], rfl⟩
  · intro hfresh hcreate
    have hnone : UserService.get_by_username db u.username = none :=
      (get_by_username_eq_none_iff db u.username).mpr hfresh
    exact ⟨by simp [create_user, withAuth, hnone, hcreate], rfl⟩

/-- C2 witness: creating a second `alice` against the two-user store is
rejected with CONFLICT and leaves the store untouched. -/
theorem createUser_conflict_and_internal_witness :
    create_user dupNameReq req0 db2 (some "tok") hash0 7 5 = (.error .conflict, db2)
    ∧ ApiError.conflict.statusCode = 400 :=
  (createUser_conflict_and_internal db2 dupNameReq req0 "tok" hash0 7 5).1
    ⟨alice, by simp [db2], rfl⟩

/-- C10: the conflict pre-check consults only the username — a create
request with a fresh username but a duplicate email passes the
pre-check, the insert fails on the store's email-uniqueness constraint,
and the handler surfaces INTERNAL (HTTP 500), never CONFLICT. -/
theorem createUser_email_dup_not_conflict (db : Store) (u : UserCreate) (req : RequestCtx)
    (t : String) (hash : String → String) (freshId now : Nat)
    (hfresh : ∀ v ∈ db, v.username ≠ u.username)
    (hemail : ∃ v ∈ db, v.email = u.email) :
    create_user u req db (some t) hash freshId now = (.error .internalError, db)
    ∧ (create_user u req db (some t) hash freshId now).1 ≠ .error .conflict
    ∧ ApiError.internalError.statusCode = 500 := by
  have hnone : UserService.get_by_username db u.username = none :=
    (get_by_username_eq_none_iff db u.username).mpr hfresh
  obtain ⟨v, hv, hve⟩ := hemail
  have hany : db.any (fun w => w.id == freshId || w.username == u.username
      || w.email == u.email) = true := by
    rw [List.any_eq_true]
    exact ⟨v, hv, by simp [hve]⟩
  have hcreate : UserService.create db u hash freshId now = none := by
    simp [UserService.create, hany]
  have hres : create_user u req db (some t) hash freshId now
      = (.error .internalError, db) := by
    simp [create_user, withAuth, hnone, hcreate]
  exact ⟨hres, by rw [hres]; simp, rfl⟩

/-- C10 witness: creating `carol` with `alice`'s email against the
two-user store takes the INTERNAL path, not the CONFLICT one. -/
theorem createUser_email_dup_not_conflict_witness :
    create_user dupEmailReq req0 db2 (some "tok") hash0 7 5 = (.error .internalError, db2)
    ∧ (create_user dupEmailReq req0 db2 (some "tok") hash0 7 5).1 ≠ .error .conflict
    ∧ ApiError.internalError.statusCode = 500 :=
  createUser_email_dup_not_conflict db2 dupEmailReq req0 "tok" hash0 7 5
    (by decide) ⟨alice, by simp [db2], rfl⟩

/-- C7: the get-user handler fails with NOT_FOUND (HTTP 404) exactly
when no stored user carries the requested id; otherwise it returns that
user's fields together with the links for that identifier. -/
theorem getUser_not_found_iff (db : Store) (uid : Nat) (req : RequestCtx) (t : String) :
    (get_user uid req db (some t) = .error .notFound ↔ ¬ ∃ u ∈ db, u.id = uid)
    ∧ (∀ u, UserService.get_by_id db uid = some u →
        get_user uid req db (some t) = .ok (mkUserResponse u (create_user_links uid req)))
    ∧ ApiError.notFound.statusCode = 404 := by
  refine ⟨⟨?_, ?_⟩, ?_, rfl⟩
  · intro h
    rintro ⟨u, hu, huid⟩
    have hsome : (UserService.get_by_id db uid).isSome := by
      simp only [UserService.get_by_id, List.find?_isSome]
      exact ⟨u, hu, by simp [huid]⟩
    obtain ⟨w, hw⟩ := Option.isSome_iff_exists.mp hsome
    simp [get_user, withAuth, hw] at h
  · intro h
    have hnone : UserService.get_by_id db uid = none := by
      rw [get_by_id_eq_none_iff]
      intro v hv hvid
      exact h ⟨v, hv, hvid⟩
    simp [get_user, withAuth, hnone]
  · intro u hu
    have huid : u.id = uid := by
      have hp := List.find?_some (p := fun (v : User) => v.id == uid)
        (by simpa [UserService.get_by_id] using hu)
      simpa using hp
    have hok : get_user uid req db (some t)
        = .ok (mkUserResponse u (create_user_links u.id req)) := by
      simp [get_user, withAuth, hu]
    rw [hok, huid]

/-- C7 witness: fetching id 1 from the two-user store returns `alice`'s
fields with the links for id 1. -/
theorem getUser_not_found_iff_witness :
    get_user 1 req0 db2 (some "tok")
      = .ok (mkUserResponse alice (create_user_links 1 req0)) :=
  (getUser_not_found_iff db2 1 req0 "tok").2.1 alice rfl

/-- C8: deleting a nonexistent id fails with NOT_FOUND (HTTP 404) and
leaves the store unchanged; deleting an existing id removes exactly
that row (the rows with a different id survive, and the row count drops
by one) and answers HTTP 204 with no body. -/
theorem deleteUser_spec (db : Store) (uid : Nat) (t : String)
    (hnodup : (db.map User.id).Nodup) :
    ((∀ u ∈ db, u.id ≠ uid) →
       delete_user uid db (some t) = (.error .notFound, db)
       ∧ ApiError.notFound.statusCode = 404)
    ∧ (∀ u, u ∈ db → u.id = uid →
       (delete_user uid db (some t)).1 = .ok { status_code := 204, body := none }
       ∧ (delete_user uid db (some t)).2 = db.filter (fun v => !(v.id == uid))
       ∧ (delete_user uid db (some t)).2.length + 1 = db.length) := by
  constructor
  · intro habs
    have hfalse : db.any (fun v => v.id == uid) = false := by
      rw [List.any_eq_false]
      intro x hx
      simp [habs x hx]
    exact ⟨by simp [delete_user, withAuth, UserService.delete, hfalse], rfl⟩
  · intro u hu huid
    have htrue : db.any (fun v => v.id == uid) = true := by
      rw [List.any_eq_true]
      exact ⟨u, hu, by simp [huid]⟩
    have h2 : (delete_user uid db (some t)).2 = db.filter (fun v => !(v.id == uid)) := by
      simp [delete_user, withAuth, UserService.delete, htrue]
    refine ⟨by simp [delete_user, withAuth, UserService.delete, htrue], h2, ?_⟩
    rw [h2]
    have hpart := length_filter_ne db uid
    have hone := countP_id_eq_one hnodup hu huid
    omega

/-- C8 witness: deleting id 1 from the two-user store answers 204 with
no body, keeps exactly the rows with a different id, and drops the row
count from 2 to 1. -/
theorem deleteUser_spec_witness :
    (delete_user 1 db2 (some "tok")).1 = .ok { status_code := 204, body := none }
    ∧ (delete_user 1 db2 (some "tok")).2 = db2.filter (fun v => !(v.id == 1))
    ∧ (delete_user 1 db2 (some "tok")).2.length + 1 = db2.length :=
  (deleteUser_spec db2 1 "tok" (by decide)).2 alice (by simp [db2]) rfl

/-- C4: for an existing id, the update handler overwrites exactly the
fields present in the exclude-unset payload (a field explicitly set,
even to an empty value, is applied), leaves every absent field — and
the immutable id, creation timestamp, password hash and login fields —
unchanged, and refreshes the update timestamp. -/
theorem updateUser_exclude_unset (db : Store) (uid : Nat) (p : UserUpdate)
    (req : RequestCtx) (t : String) (now : Nat)
    (u : User) (hu : UserService.get_by_id db uid = some u) :
    ∃ u2,
      (update_user uid p req db (some t) now).1
        = .ok (mkUserResponse u2 (create_user_links u2.id req))
      ∧ (update_user uid p req db (some t) now).2
        = db.map (fun v => if v.id == uid then u2 else v)
      ∧ u2.username = p.username.getD u.username
      ∧ u2.email = p.email.getD u.email
      ∧ u2.full_name = p.full_name.getD u.full_name
      ∧ u2.bio = p.bio.getD u.bio
      ∧ u2.profile_picture_url = p.profile_picture_url.getD u.profile_picture_url
      ∧ u2.updated_at = now
      ∧ u2.id = u.id
      ∧ u2.hashed_password = u.hashed_password
      ∧ u2.last_login_at = u.last_login_at
      ∧ u2.failed_login_attempts = u.failed_login_attempts
      ∧ u2.created_at = u.created_at := by
  refine ⟨applyUpdate u p now, ?_, ?_,
    rfl, rfl, rfl, rfl, rfl, rfl, rfl, rfl, rfl, rfl, rfl⟩
  · simp [update_user, withAuth, UserService.update, hu]
  · simp [update_user, withAuth, UserService.update, hu]

/-- C4 witness: updating id 1 with a payload that sets email and bio,
explicitly nulls the profile picture, and omits username and full name,
applies exactly the present fields and stamps the new update time. -/
theorem updateUser_exclude_unset_witness :
    ∃ u2,
      (update_user 1 upd0 req0 db2 (some "tok") 9).1
        = .ok (mkUserResponse u2 (create_user_links u2.id req0))
      ∧ (update_user 1 upd0 req0 db2 (some "tok") 9).2
        = db2.map (fun v => if v.id == 1 then u2 else v)
      ∧ u2.username = upd0.username.getD alice.username
      ∧ u2.email = upd0.email.getD alice.email
      ∧ u2.full_name = upd0.full_name.getD alice.full_name
      ∧ u2.bio = upd0.bio.getD alice.bio
      ∧ u2.profile_picture_url = upd0.profile_picture_url.getD alice.profile_picture_url
      ∧ u2.updated_at = 9
      ∧ u2.id = alice.id
      ∧ u2.hashed_password = alice.hashed_password
      ∧ u2.last_login_at = alice.last_login_at
      ∧ u2.failed_login_attempts = alice.failed_login_attempts
      ∧ u2.created_at = alice.created_at :=
  updateUser_exclude_unset db2 1 upd0 req0 "tok" 9 alice rfl

/-- C6: every successful get, update, create and list payload is the
serialization of the stored row's non-password fields — exactly the
keys id, username, email, last_login_at, created_at, updated_at and
links — and the hashed password is never among the serialized keys. -/
theorem responses_exclude_hashed_password :
    (∀ u links, "hashed_password" ∉ ((mkUserResponse u links).serialize.map Prod.fst))
    ∧ (∀ u links, (mkUserResponse u links).serialize
        = [("id", .nat u.id), ("username", .str u.username), ("email", .str u.email),
           ("last_login_at", .optNat u.last_login_at), ("created_at", .nat u.created_at),
           ("updated_at", .nat u.updated_at), ("links", .linkMap links)])
    ∧ (∀ db uid req t u, UserService.get_by_id db uid = some u →
        get_user uid req db (some t)
          = .ok (mkUserResponse u (create_user_links u.id req)))
    ∧ (∀ db uid p req t now u2 db', UserService.update db uid p now = some (u2, db') →
        (update_user uid p req db (some t) now).1
          = .ok (mkUserResponse u2 (create_user_links u2.id req)))
    ∧ (∀ db u req t hash freshId now cu db',
        UserService.get_by_username db u.username = none →
        UserService.create db u hash freshId now = some (cu, db') →
        (create_user u req db (some t) hash freshId now).1
          = .ok (mkUserResponse cu (create_user_links cu.id req)))
    ∧ (∀ db req skip limit t r, list_users req skip limit db (some t) = .ok r →
        r.items = (UserService.list_users db skip limit).map
          (fun u => mkUserResponse u (create_user_links u.id req))) := by
  refine ⟨?_, ?_, ?_, ?_, ?_, ?_⟩
  · intro u links
    simp [UserResponse.serialize, mkUserResponse]
  · intro u links
    rfl
  · intro db uid req t u hu
    simp [get_user, withAuth, hu]
  · intro db uid p req t now u2 db' hup
    simp [update_user, withAuth, hup]
  · intro db u req t hash freshId now cu db' hnone hcreate
    simp [create_user, withAuth, hnone, hcreate]
  · intro db req skip limit t r hr
    simp only [list_users, withAuth] at hr
    cases h1 : pyFloorDiv skip limit with
    | error e => rw [h1] at hr; cases hr
    | ok d1 =>
      cases h2 : pyFloorDiv ((UserService.count db : Int) + limit - 1) limit with
      | error e => rw [h1, h2] at hr; cases hr
      | ok d2 =>
        rw [h1, h2] at hr
        simp only [Except.ok.injEq] at hr
        rw [← hr]

/-- C6 witness: fetching id 1 succeeds with `alice`'s serialized
non-password fields, and the key `hashed_password` is absent. -/
theorem responses_exclude_hashed_password_witness :
    "hashed_password"
      ∉ ((mkUserResponse alice (create_user_links alice.id req0)).serialize.map Prod.fst)
    ∧ get_user 1 req0 db2 (some "tok")
      = .ok (mkUserResponse alice (create_user_links alice.id req0)) :=
  ⟨responses_exclude_hashed_password.1 alice (create_user_links alice.id req0),
   responses_exclude_hashed_password.2.2.1 db2 1 req0 "tok" alice rfl⟩

/-- A concrete store of 25 users with distinct ids, usernames and
emails. -/
def store25 : Store :=
  (List.range 25).map (fun n =>
    { alice with
      id := n
      username := "user" ++ toString n
      email := toString n ++ "@example.com" })

/-- C3: for skip ≥ 0 and limit > 0 the list-users response reports page
number `skip // limit + 1` and total pages `ceil(total_items /
limit)`. -/
theorem listUsers_page_arithmetic (db : Store) (skip limit : Int)
    (req : RequestCtx) (t : String) (hs : 0 ≤ skip) (hl : 0 < limit) :
    ∃ r, list_users req skip limit db (some t) = .ok r
      ∧ r.pagination.page = skip / limit + 1
      ∧ r.pagination.total_pages = ⌈(db.length : ℚ) / (limit : ℚ)⌉
      ∧ r.pagination.total_items = (db.length : Int) := by
  refine ⟨_, listUsers_ok db skip limit req t (ne_of_gt hl), ?_, ?_, rfl⟩
  · show skip.fdiv limit + 1 = skip / limit + 1
    rw [Int.fdiv_eq_ediv _ (le_of_lt hl)]
  · show ((db.length : Int) + limit - 1).fdiv limit = ⌈(db.length : ℚ) / (limit : ℚ)⌉
    rw [add_sub_one_fdiv_eq_ceil _ _ hl]
    norm_num

/-- C3 witness: with 25 stored users, skip = 20 and limit = 10 the
response reports page 3 of 3. -/
theorem listUsers_page_arithmetic_witness :
    ∃ r, list_users req0 20 10 store25 (some "tok") = .ok r
      ∧ r.pagination.page = 3 ∧ r.pagination.total_pages = 3 := by
  obtain ⟨r, hok, hp, ht, -⟩ :=
    listUsers_page_arithmetic store25 20 10 req0 "tok" (by norm_num) (by norm_num)
  have hceil : ⌈(25 : ℚ) / (10 : ℚ)⌉ = 3 := by
    rw [Int.ceil_eq_iff]
    norm_num
  refine ⟨r, hok, ?_, ?_⟩
  · rw [hp]
    decide
  · rw [ht]
    convert hceil using 2

/-- C5: for skip ≥ 0 and limit > 0 the pagination-links mapping of the
list-users response always holds key `self`, holds `next` iff
`skip + limit < total_items`, holds `previous` iff `skip > 0`, and the
previous link's offset is clamped to zero. -/
theorem listUsers_pagination_link_keys (db : Store) (skip limit : Int)
    (req : RequestCtx) (t : String) (hs : 0 ≤ skip) (hl : 0 < limit) :
    ∃ r, list_users req skip limit db (some t) = .ok r
      ∧ r.pagination.links = generate_pagination_links req skip limit (db.length : Int)
      ∧ "self" ∈ r.pagination.links.map Prod.fst
      ∧ ("next" ∈ r.pagination.links.map Prod.fst ↔ skip + limit < (db.length : Int))
      ∧ ("previous" ∈ r.pagination.links.map Prod.fst ↔ 0 < skip)
      ∧ (0 < skip →
          ("previous", pageUrl req (max (skip - limit) 0) limit) ∈ r.pagination.links) := by
  refine ⟨_, listUsers_ok db skip limit req t (ne_of_gt hl), rfl, ?_, ?_, ?_, ?_⟩
  · simp [generate_pagination_links]
  · by_cases hn : skip + limit < (db.length : Int) <;>
      by_cases hp : (0 : Int) < skip <;>
      simp [generate_pagination_links, hn, hp]
  · by_cases hn : skip + limit < (db.length : Int) <;>
      by_cases hp : (0 : Int) < skip <;>
      simp [generate_pagination_links, hn, hp]
  · intro hp
    by_cases hn : skip + limit < (db.length : Int) <;>
      simp [generate_pagination_links, hn, hp]

/-- C5 witness: with 25 stored users, skip = 20 and limit = 10 the
links hold `self`, no `next`, and a `previous` link whose offset is
skip = 10. -/
theorem listUsers_pagination_link_keys_witness :
    ∃ r, list_users req0 20 10 store25 (some "tok") = .ok r
      ∧ "self" ∈ r.pagination.links.map Prod.fst
      ∧ ¬ "next" ∈ r.pagination.links.map Prod.fst
      ∧ ("previous", pageUrl req0 10 10) ∈ r.pagination.links := by
  obtain ⟨r, hok, -, hself, hnext, -, hprev⟩ :=
    listUsers_pagination_link_keys store25 20 10 req0 "tok" (by norm_num) (by norm_num)
  refine ⟨r, hok, hself, ?_, ?_⟩
  · rw [hnext]
    norm_num [store25]
  · simpa using hprev (by norm_num)

end UserApi
